import Mathlib

/-!
Verification development for the Snyk CSV ignore tool (`snyk_ignore_csv.py`).

The Python source is shallowly embedded: strings are `String`/`List Char`,
Python `str.split` / `in` / `str.strip` / `urllib.parse.unquote` / `int` are
modelled as executable Lean functions, the HTTP transport is a capability
`Nat → MockResponse` giving the response to the n-th POST, and
`time.sleep` is recorded as a list of requested durations.  An unhandled
Python exception is modelled as an `Except.error` outcome.
-/

namespace SnykIgnore

/-! ## Python string primitives -/

/-- Model of Python `str.split(sep)` for a non-empty separator, with explicit
fuel so the function is structurally recursive (`fuel ≥ length` always holds
at the entry point `pySplit`).  The accumulator holds the current chunk in
reverse. -/
def pySplitAux (sep : List Char) : Nat → List Char → List Char → List (List Char)
  | _, [], acc => [acc.reverse]
  | 0, c :: rest, acc => [acc.reverse ++ c :: rest]
  | fuel + 1, c :: rest, acc =>
    if sep.isPrefixOf (c :: rest) then
      acc.reverse :: pySplitAux sep fuel ((c :: rest).drop sep.length) []
    else
      pySplitAux sep fuel rest (c :: acc)

/-- Python `s.split(sep)` (for non-empty `sep`): splits at every occurrence of
`sep`, scanning left to right. -/
def pySplit (sep s : List Char) : List (List Char) :=
  pySplitAux sep s.length s []

/-- Model of the Python substring test `sep in s`. -/
def containsSub (sep : List Char) : List Char → Bool
  | [] => sep.isPrefixOf []
  | c :: rest => sep.isPrefixOf (c :: rest) || containsSub sep rest

/-- The part of `s` strictly before the first occurrence of `sep`
(all of `s` when `sep` does not occur).  Reference function used to state
what `pySplit` computes. -/
def beforeFirst (sep : List Char) : List Char → List Char
  | [] => []
  | c :: rest => if sep.isPrefixOf (c :: rest) then [] else c :: beforeFirst sep rest

/-- ASCII whitespace stripped by Python `str.strip()`. -/
def pyIsSpace (c : Char) : Bool :=
  c == ' ' || c == '\t' || c == '\n' || c == '\r' || c == '\x0b' || c == '\x0c'

/-- Model of Python `str.strip()` (ASCII whitespace). -/
def pyStrip (s : String) : String :=
  ⟨((s.data.dropWhile pyIsSpace).reverse.dropWhile pyIsSpace).reverse⟩

/-! ## Percent decoding (`urllib.parse.unquote`)

`unquote` replaces each valid `%XX` hex escape by the byte `0xXX`, passes
other characters through as their UTF-8 bytes, and finally decodes the byte
stream as UTF-8, substituting U+FFFD for ill-formed sequences (Python uses
`errors="replace"`). -/

/-- Value of a hexadecimal digit, as accepted by `unquote`. -/
def hexVal (c : Char) : Option Nat :=
  if '0' ≤ c ∧ c ≤ '9' then some (c.toNat - 48)
  else if 'a' ≤ c ∧ c ≤ 'f' then some (c.toNat - 87)
  else if 'A' ≤ c ∧ c ≤ 'F' then some (c.toNat - 55)
  else none

/-- UTF-8 encoding of one code point. -/
def utf8EncodeChar (c : Char) : List Nat :=
  let n := c.toNat
  if n < 128 then [n]
  else if n < 2048 then [192 + n / 64, 128 + n % 64]
  else if n < 65536 then [224 + n / 4096, 128 + n / 64 % 64, 128 + n % 64]
  else [240 + n / 262144, 128 + n / 4096 % 64, 128 + n / 64 % 64, 128 + n % 64]

/-- Turn a percent-encoded character sequence into a byte sequence: a `%`
followed by two hex digits becomes that byte; anything else (including a `%`
not followed by two hex digits, which Python keeps verbatim) contributes its
UTF-8 bytes. -/
def percentToBytes : List Char → List Nat
  | [] => []
  | '%' :: a :: b :: rest =>
    match hexVal a, hexVal b with
    | some x, some y => (16 * x + y) :: percentToBytes rest
    | _, _ => 37 :: percentToBytes (a :: b :: rest)
  | c :: rest => utf8EncodeChar c ++ percentToBytes rest

/-- The replacement character U+FFFD. -/
def replChar : Char := Char.ofNat 65533

/-- State of the incremental UTF-8 decoder: accumulated code point bits,
number of continuation bytes still expected, and the acceptable range for
the next continuation byte. -/
structure Utf8DecState where
  codePoint : Nat
  bytesNeeded : Nat
  lowerB : Nat
  upperB : Nat

def utf8InitState : Utf8DecState := ⟨0, 0, 128, 191⟩

/-- Handle a byte in the initial state (expecting a lead byte). -/
def utf8HandleLead (b : Nat) : Utf8DecState × List Char :=
  if b ≤ 127 then (utf8InitState, [Char.ofNat b])
  else if 194 ≤ b ∧ b ≤ 223 then (⟨b - 192, 1, 128, 191⟩, [])
  else if 224 ≤ b ∧ b ≤ 239 then
    (⟨b - 224, 2, if b = 224 then 160 else 128, if b = 237 then 159 else 191⟩, [])
  else if 240 ≤ b ∧ b ≤ 244 then
    (⟨b - 240, 3, if b = 240 then 144 else 128, if b = 244 then 143 else 191⟩, [])
  else (utf8InitState, [replChar])

/-- One step of the UTF-8 decoder with replacement (WHATWG-style, as CPython
does for `errors="replace"`). -/
def utf8Step (st : Utf8DecState) (b : Nat) : Utf8DecState × List Char :=
  if st.bytesNeeded = 0 then utf8HandleLead b
  else if st.lowerB ≤ b ∧ b ≤ st.upperB then
    let cp := st.codePoint * 64 + (b - 128)
    if st.bytesNeeded = 1 then (utf8InitState, [Char.ofNat cp])
    else (⟨cp, st.bytesNeeded - 1, 128, 191⟩, [])
  else
    let s := utf8HandleLead b
    (s.1, replChar :: s.2)

def utf8DecodeLoop : Utf8DecState → List Nat → List Char
  | st, [] => if st.bytesNeeded = 0 then [] else [replChar]
  | st, b :: rest =>
    let s := utf8Step st b
    s.2 ++ utf8DecodeLoop s.1 rest

/-- Model of Python `urllib.parse.unquote` on the character list of a
string. -/
def unquote (s : List Char) : List Char :=
  utf8DecodeLoop utf8InitState (percentToBytes s)

/-! ## The URL identifier functions (`snyk_ignore_csv.py`, lines 63-102) -/

/-- Function `parse_issue_id` (lines 63-74):
`if "#issue-" not in issue_url: return None` then
`unquote(issue_url.split("#issue-")[1])`. -/
def parse_issue_id (issue_url : String) : Option String :=
  if containsSub "#issue-".data issue_url.data then
    some ⟨unquote ((pySplit "#issue-".data issue_url.data).getD 1 [])⟩
  else none

/-- Function `parse_project_id` (lines 76-88):
`if "/project/" not in project_url: return None` then
`project_url.split("/project/")[1].split("#")[0].split("/")[0]`. -/
def parse_project_id (project_url : String) : Option String :=
  if containsSub "/project/".data project_url.data then
    let project_part := (pySplit "/project/".data project_url.data).getD 1 []
    some ⟨(pySplit "/".data ((pySplit "#".data project_part).getD 0 [])).getD 0 []⟩
  else none

/-- Function `parse_org_id` (lines 90-102):
`if "/org/" not in url: return None`, `parts = url.split("/org/")[1].split("/")`,
`if not parts: return None`, `return parts[0]`. -/
def parse_org_id (url : String) : Option String :=
  if containsSub "/org/".data url.data then
    let parts := pySplit "/".data ((pySplit "/org/".data url.data).getD 1 [])
    if parts = [] then none
    else some ⟨parts.getD 0 []⟩
  else none

/-! ## Python `int()` on strings -/

/-- Value of a decimal digit. -/
def digitVal (c : Char) : Option Nat :=
  if '0' ≤ c ∧ c ≤ '9' then some (c.toNat - 48) else none

/-- Continuation of a decimal literal: digits, with single underscores
allowed between digits (as Python `int()` accepts). -/
def parseDigitsRest : List Char → Nat → Option Nat
  | [], acc => some acc
  | '_' :: c :: rest, acc =>
    match digitVal c with
    | some d => parseDigitsRest rest (acc * 10 + d)
    | none => none
  | ['_'], _ => none
  | c :: rest, acc =>
    match digitVal c with
    | some d => parseDigitsRest rest (acc * 10 + d)
    | none => none

/-- A decimal literal: at least one digit. -/
def parseDigitsFirst : List Char → Option Nat
  | [] => none
  | c :: rest =>
    match digitVal c with
    | some d => parseDigitsRest rest d
    | none => none

/-- Model of Python `int(s)`: strip whitespace, optional sign, decimal
digits.  `none` models the `ValueError` that `int` raises on anything
else. -/
def pyInt (s : String) : Option Int :=
  match (pyStrip s).data with
  | '+' :: rest => (parseDigitsFirst rest).map Int.ofNat
  | '-' :: rest => (parseDigitsFirst rest).map (fun n => -(n : Int))
  | rest => (parseDigitsFirst rest).map Int.ofNat

/-! ## The ignore API client (`call_snyk_ignore_api`, lines 104-147)

The HTTP transport is a capability: `responses k` is the response returned
by the k-th POST of the run.  A `call_snyk_ignore_api` invocation that
starts at global POST index `i` therefore consumes `responses i`,
`responses (i+1)`, ... -/

/-- A transport response: status code, headers, body text (the fields of
`requests.Response` that the program reads). -/
structure MockResponse where
  status_code : Nat
  headers : List (String × String)
  text : String
deriving DecidableEq

/-- The lookup `response.headers.get("Retry-After", "10")` of line 141. -/
def retryAfterRaw (r : MockResponse) : String :=
  (List.lookup "Retry-After" r.headers).getD "10"

/-- The message of the `ValueError` raised by `int()` on a non-numeric
string. -/
def valueErrorMsg : String := "ValueError: invalid literal for int() with base 10"

/-- Result of running the retry loop: number of POSTs made, the sleep
durations requested in order, and either the returned response or an
unhandled exception. -/
structure LoopResult where
  posts : Nat
  sleeps : List Int
  outcome : Except String MockResponse

/-- The `for attempt in range(max_retries)` loop (lines 137-147).  `i` is the
index of the next POST, `remaining` is the number of loop iterations left
AFTER the current one, and `sleeps` accumulates sleep durations in reverse.
On 429 the code computes `int(headers.get("Retry-After", "10"))` — which
raises on a non-numeric value — then sleeps and retries; when iterations run
out it returns the last (429) response.  Any other status returns at
once. -/
def snykIgnoreLoop (responses : Nat → MockResponse) : Nat → Nat → List Int → LoopResult
  | i, remaining, sleeps =>
    let response := responses i
    if response.status_code == 429 then
      match pyInt (retryAfterRaw response) with
      | none => ⟨i + 1, sleeps.reverse, Except.error valueErrorMsg⟩
      | some retry_after =>
        match remaining with
        | 0 => ⟨i + 1, (retry_after :: sleeps).reverse, Except.ok response⟩
        | r + 1 => snykIgnoreLoop responses (i + 1) r (retry_after :: sleeps)
    else ⟨i + 1, sleeps.reverse, Except.ok response⟩

/-- The endpoint URL built at line 119. -/
def snykIgnoreUrl (org_id project_id issue_id : String) : String :=
  "https://api.snyk.io/v1/org/" ++ org_id ++ "/project/" ++ project_id
    ++ "/ignore/" ++ issue_id

/-- The JSON payload of lines 120-127; `expires` is added only when truthy. -/
structure IgnorePayload where
  reason : String
  reasonType : String
  disregardIfFixable : Bool
  ignorePath : String
  expires : Option String
deriving DecidableEq

def mkIgnorePayload (reason_text reason_type : String) (disregard_if_fixable : Bool)
    (ignore_path : String) (expires : Option String) : IgnorePayload :=
  { reason := reason_text
    reasonType := reason_type
    disregardIfFixable := disregard_if_fixable
    ignorePath := ignore_path
    expires := match expires with
      | some e => if e == "" then none else some e
      | none => none }

/-- Everything observable about one `call_snyk_ignore_api` invocation. -/
structure ApiCallResult where
  url : String
  reqHeaders : List (String × String)
  payload : IgnorePayload
  posts : Nat
  sleeps : List Int
  outcome : Except String MockResponse

/-- Function `call_snyk_ignore_api` (lines 104-147).  A `max_retries ≤ 0` is coerced to
1 (lines 134-135), so the loop runs `max(max_retries, 1)` iterations. -/
def call_snyk_ignore_api (org_id project_id issue_id token reason_text reason_type : String)
    (disregard_if_fixable : Bool) (expires : Option String) (ignore_path : String)
    (responses : Nat → MockResponse) (max_retries : Int) : ApiCallResult :=
  let url := snykIgnoreUrl org_id project_id issue_id
  let payload := mkIgnorePayload reason_text reason_type disregard_if_fixable
    ignore_path expires
  let reqHeaders := [("Authorization", "token " ++ token),
    ("Content-Type", "application/json")]
  let retries : Int := if max_retries ≤ 0 then 1 else max_retries
  let lr := snykIgnoreLoop responses 0 (retries.toNat - 1) []
  ⟨url, reqHeaders, payload, lr.posts, lr.sleeps, lr.outcome⟩

/-! ## The CSV row processor (`process_csv`, lines 149-214) -/

/-- Truthiness of a Python `Optional[str]`: `None` and `""` are falsy. -/
def pyTruthyStrOpt : Option String → Bool
  | none => false
  | some s => s != ""

/-- The reason-text derivation of lines 181-194, returning `none` when the
row is skipped for lack of any reason text. -/
def rowReason (reason_text : Option String) (ignore_text_column : Option String)
    (row : List (String × String)) : Option String :=
  let final0 := reason_text.getD ""
  if pyTruthyStrOpt ignore_text_column then
    let column_text := pyStrip ((List.lookup (ignore_text_column.getD "") row).getD "")
    if column_text == "" then
      if pyTruthyStrOpt reason_text then some final0 else none
    else
      if pyTruthyStrOpt reason_text then some (final0 ++ " " ++ column_text)
      else some column_text
  else some final0

/-- Log of one invocation of the API client from the processor. -/
structure ClientCall where
  org_id : String
  project_id : String
  issue_id : String
  reason_text : String
  result : ApiCallResult

/-- What the processor prints for one row. -/
inductive RowOutcome where
  | skippedMissingUrl
  | skippedUnparsable
  | skippedMissingText
  | succeeded (issue org proj : String)
  | failed (issue org proj : String) (status : Nat) (body : String)
deriving DecidableEq

/-- Result of a `process_csv` run: the API-client invocations made, the
per-row outcomes printed, and — since the function has no exception
handler — the exception that aborted the run, if any. -/
structure ProcessResult where
  calls : List ClientCall
  outcomes : List RowOutcome
  exc : Option String

/-- The row loop of `process_csv` (lines 164-214).  `idx` is the global POST
index, threaded because each row's API call consumes transport responses.
An `Except.error` from the client is an unhandled exception: it aborts the
whole run (no try/except in the source), so later rows are dropped. -/
def process_csv_rows (token : String) (reason_text : Option String) (reason_type : String)
    (disregard_if_fixable : Bool) (expires : Option String) (ignore_path : String)
    (ignore_text_column : Option String) (responses : Nat → MockResponse) :
    List (List (String × String)) → Nat → ProcessResult
  | [], _ => ⟨[], [], none⟩
  | row :: rest, idx =>
    let issue_url := pyStrip ((List.lookup "ISSUE_URL" row).getD "")
    if issue_url == "" then
      let r := process_csv_rows token reason_text reason_type disregard_if_fixable
        expires ignore_path ignore_text_column responses rest idx
      ⟨r.calls, RowOutcome.skippedMissingUrl :: r.outcomes, r.exc⟩
    else
      let org_id := parse_org_id issue_url
      let project_id := parse_project_id issue_url
      let issue_id := parse_issue_id issue_url
      if pyTruthyStrOpt org_id = false ∨ pyTruthyStrOpt project_id = false
          ∨ pyTruthyStrOpt issue_id = false then
        let r := process_csv_rows token reason_text reason_type disregard_if_fixable
          expires ignore_path ignore_text_column responses rest idx
        ⟨r.calls, RowOutcome.skippedUnparsable :: r.outcomes, r.exc⟩
      else
        match rowReason reason_text ignore_text_column row with
        | none =>
          let r := process_csv_rows token reason_text reason_type disregard_if_fixable
            expires ignore_path ignore_text_column responses rest idx
          ⟨r.calls, RowOutcome.skippedMissingText :: r.outcomes, r.exc⟩
        | some final_reason_text =>
          let o := org_id.getD ""
          let p := project_id.getD ""
          let iid := issue_id.getD ""
          let res := call_snyk_ignore_api o p iid token final_reason_text reason_type
            disregard_if_fixable expires ignore_path (fun k => responses (idx + k)) 3
          let call : ClientCall := ⟨o, p, iid, final_reason_text, res⟩
          match res.outcome with
          | Except.error e => ⟨[call], [], some e⟩
          | Except.ok resp =>
            let out := if resp.status_code == 200
              then RowOutcome.succeeded iid o p
              else RowOutcome.failed iid o p resp.status_code resp.text
            let r := process_csv_rows token reason_text reason_type disregard_if_fixable
              expires ignore_path ignore_text_column responses rest (idx + res.posts)
            ⟨call :: r.calls, out :: r.outcomes, r.exc⟩

/-- Function `process_csv` itself: iterate the parsed CSV rows from POST index 0. -/
def process_csv (file_rows : List (List (String × String))) (token : String)
    (reason_text : Option String) (reason_type : String) (disregard_if_fixable : Bool)
    (expires : Option String) (ignore_path : String) (ignore_text_column : Option String)
    (responses : Nat → MockResponse) : ProcessResult :=
  process_csv_rows token reason_text reason_type disregard_if_fixable expires
    ignore_path ignore_text_column responses file_rows 0

/-! ## Auxiliary definitions for statements -/

/-- A finite response script extended into a stream. -/
def streamOf (l : List MockResponse) (d : MockResponse) : Nat → MockResponse :=
  fun i => l.getD i d

/-- Characters of a percent-encoded string: RFC 3986 unreserved characters
plus the percent sign (hex escapes use alphanumerics).  In particular such a
string contains neither `/` nor `#`. -/
def urlSafeChar (c : Char) : Bool :=
  c.isAlphanum || c == '%' || c == '-' || c == '.' || c == '_' || c == '~'

/-! ## Lemmas about the string primitives -/

theorem isPrefixOf_iff : ∀ (l₁ l₂ : List Char), l₁.isPrefixOf l₂ = true ↔ ∃ t, l₁ ++ t = l₂
  | [], l₂ => by simp [List.isPrefixOf]
  | a :: l₁, [] => by simp [List.isPrefixOf]
  | a :: l₁, b :: l₂ => by
    simp only [List.isPrefixOf, Bool.and_eq_true, beq_iff_eq, List.cons_append,
      List.cons.injEq, isPrefixOf_iff l₁ l₂]
    constructor
    · rintro ⟨rfl, t, rfl⟩; exact ⟨t, rfl, rfl⟩
    · rintro ⟨t, rfl, h⟩; exact ⟨rfl, t, h⟩

theorem isPrefixOf_append (l t : List Char) : l.isPrefixOf (l ++ t) = true :=
  (isPrefixOf_iff _ _).mpr ⟨t, rfl⟩

theorem prefix_of_longer {sep x big : List Char} (t1 : List Char)
    (h : sep ++ t1 = big) (hx : ∃ y, x ++ y = big) (hlen : sep.length ≤ x.length) :
    sep.isPrefixOf x = true := by
  obtain ⟨y, hy⟩ := hx
  apply (isPrefixOf_iff _ _).mpr
  refine ⟨x.drop sep.length, ?_⟩
  have h1 : big.take sep.length = sep := by
    rw [← h]; exact List.take_left sep t1
  have h2 : big.take sep.length = x.take sep.length := by
    rw [← hy, List.take_append_eq_append_take]
    have h0 : sep.length - x.length = 0 := Nat.sub_eq_zero_of_le hlen
    simp [h0]
  have h3 : x.take sep.length = sep := by rw [← h2, h1]
  nth_rewrite 1 [← h3]
  exact List.take_append_drop _ _

theorem containsSub_of_isPrefixOf {sep s : List Char} (h : sep.isPrefixOf s = true) :
    containsSub sep s = true := by
  cases s with
  | nil => simpa [containsSub] using h
  | cons c t => simp [containsSub, h]

theorem containsSub_pattern (sep : List Char) : ∀ (a b : List Char),
    containsSub sep (a ++ (sep ++ b)) = true
  | [], b => by
    simpa using containsSub_of_isPrefixOf (isPrefixOf_append sep b)
  | c :: a', b => by
    simp only [List.cons_append]
    rw [containsSub, containsSub_pattern sep a' b]
    simp

theorem containsSub_head_free {h : Char} {tl : List Char} :
    ∀ {s : List Char}, s.all (fun c => c != h) = true → containsSub (h :: tl) s = false
  | [], _ => by simp [containsSub, List.isPrefixOf]
  | c :: t, hs => by
    rw [List.all_cons, Bool.and_eq_true] at hs
    have hbc : (h == c) = false := beq_eq_false_iff_ne.mpr (bne_iff_ne.mp hs.1).symm
    have hpf : (h :: tl).isPrefixOf (c :: t) = false := by
      simp [List.isPrefixOf, hbc]
    rw [containsSub, hpf, containsSub_head_free hs.2]
    rfl

theorem pySplitAux_fuel {sep : List Char} (hsep : sep ≠ []) :
    ∀ (f1 f2 : Nat) (s acc : List Char), s.length ≤ f1 → s.length ≤ f2 →
      pySplitAux sep f1 s acc = pySplitAux sep f2 s acc := by
  have hpos : 1 ≤ sep.length := List.length_pos.mpr hsep
  intro f1
  induction f1 with
  | zero =>
    intro f2 s acc h1 _
    have hnil : s = [] := List.length_eq_zero.mp (Nat.le_zero.mp h1)
    subst hnil; cases f2 <;> rfl
  | succ g ih =>
    intro f2 s acc h1 h2
    cases s with
    | nil => cases f2 <;> rfl
    | cons c rest =>
      cases f2 with
      | zero => simp at h2
      | succ g2 =>
        simp only [List.length_cons] at h1 h2
        simp only [pySplitAux]
        by_cases hp : sep.isPrefixOf (c :: rest) = true
        · rw [if_pos hp, if_pos hp]
          congr 1
          apply ih
          · simp only [List.length_drop, List.length_cons]; omega
          · simp only [List.length_drop, List.length_cons]; omega
        · rw [if_neg (by simp [hp]), if_neg (by simp [hp])]
          exact ih g2 rest (c :: acc) (by omega) (by omega)

theorem pySplitAux_acc {sep : List Char} (hsep : sep ≠ []) :
    ∀ (fuel : Nat) (s acc : List Char), s.length ≤ fuel →
      pySplitAux sep fuel s acc
        = (acc.reverse ++ (pySplitAux sep s.length s []).getD 0 [])
            :: (pySplitAux sep s.length s []).tail := by
  have hpos : 1 ≤ sep.length := List.length_pos.mpr hsep
  intro fuel
  induction fuel with
  | zero =>
    intro s acc h
    have hnil : s = [] := List.length_eq_zero.mp (Nat.le_zero.mp h)
    subst hnil; simp [pySplitAux]
  | succ g ih =>
    intro s acc h
    cases s with
    | nil => simp [pySplitAux]
    | cons c rest =>
      simp only [List.length_cons, Nat.succ_le_succ_iff] at h
      simp only [pySplitAux, List.length_cons]
      by_cases hp : sep.isPrefixOf (c :: rest) = true
      · rw [if_pos hp, if_pos hp]
        have hd : ((c :: rest).drop sep.length).length ≤ g := by
          simp only [List.length_drop, List.length_cons]; omega
        have hd2 : ((c :: rest).drop sep.length).length ≤ rest.length := by
          simp only [List.length_drop, List.length_cons]; omega
        rw [pySplitAux_fuel hsep g rest.length _ [] hd hd2]
        simp
      · rw [if_neg (by simp [hp]), if_neg (by simp [hp])]
        rw [ih rest (c :: acc) h]
        rw [pySplitAux_fuel hsep rest.length g rest [c] (Nat.le_refl _) h]
        rw [ih rest [c] h]
        simp

theorem pySplitAux_cons_pos {sep : List Char} {c : Char} {rest : List Char} (fuel : Nat)
    (acc : List Char) (hp : sep.isPrefixOf (c :: rest) = true) :
    pySplitAux sep (fuel + 1) (c :: rest) acc
      = acc.reverse :: pySplitAux sep fuel ((c :: rest).drop sep.length) [] := by
  simp only [pySplitAux]
  rw [if_pos hp]

theorem pySplit_nil (sep : List Char) : pySplit sep [] = [[]] := rfl

theorem pySplit_pos {sep : List Char} (hsep : sep ≠ []) (t : List Char) :
    pySplit sep (sep ++ t) = [] :: pySplit sep t := by
  obtain ⟨a, sep', rfl⟩ : ∃ a sep', sep = a :: sep' := by
    cases sep with
    | nil => exact absurd rfl hsep
    | cons a s => exact ⟨a, s, rfl⟩
  show pySplitAux _ ((a :: sep') ++ t).length ((a :: sep') ++ t) [] = _
  have hlen : ((a :: sep') ++ t).length = (sep' ++ t).length + 1 := by simp
  have hcons : (a :: sep') ++ t = a :: (sep' ++ t) := List.cons_append a sep' t
  rw [hlen, hcons]
  rw [pySplitAux_cons_pos (sep' ++ t).length []
    (by exact isPrefixOf_append (a :: sep') t)]
  have hdrop : (a :: (sep' ++ t)).drop (a :: sep').length = t := by
    have hd := List.drop_left (a :: sep') t
    rw [hcons] at hd
    exact hd
  rw [hdrop]
  rw [pySplitAux_fuel (by simp) (sep' ++ t).length t.length t [] (by simp) (Nat.le_refl _)]
  rfl

theorem pySplit_neg {sep : List Char} (hsep : sep ≠ []) {c : Char} {t : List Char}
    (hp : sep.isPrefixOf (c :: t) = false) :
    pySplit sep (c :: t)
      = (c :: (pySplit sep t).getD 0 []) :: (pySplit sep t).tail := by
  show pySplitAux sep (t.length + 1) (c :: t) [] = _
  simp only [pySplitAux]
  rw [if_neg (by simp [hp])]
  have := pySplitAux_acc hsep t.length t [c] (Nat.le_refl _)
  simpa using this

theorem beforeFirst_eq_nil {sep s : List Char} (hp : sep.isPrefixOf s = true) :
    beforeFirst sep s = [] := by
  cases s with
  | nil => rfl
  | cons c t => simp [beforeFirst, hp]

theorem pySplit_head {sep : List Char} (hsep : sep ≠ []) :
    ∀ s, (pySplit sep s).getD 0 [] = beforeFirst sep s
  | [] => by simp [pySplit_nil, beforeFirst]
  | c :: t => by
    by_cases hp : sep.isPrefixOf (c :: t) = true
    · obtain ⟨u, hu⟩ := (isPrefixOf_iff _ _).mp hp
      rw [← hu, pySplit_pos hsep u, beforeFirst_eq_nil (by rw [hu]; exact hp)]
      rfl
    · rw [pySplit_neg hsep (by simp [hp])]
      cases t with
      | nil => simp [beforeFirst, hp, pySplit_nil]
      | cons c' t' =>
        rw [beforeFirst]
        rw [if_neg (by simp [hp])]
        simpa using pySplit_head hsep (c' :: t')

theorem pySplit_ne_nil {sep : List Char} (hsep : sep ≠ []) (s : List Char) :
    pySplit sep s ≠ [] := by
  cases s with
  | nil => simp [pySplit_nil]
  | cons c t =>
    by_cases hp : sep.isPrefixOf (c :: t) = true
    · obtain ⟨u, hu⟩ := (isPrefixOf_iff _ _).mp hp
      rw [← hu, pySplit_pos hsep u]; simp
    · rw [pySplit_neg hsep (by simp [hp])]; simp

theorem pySplit_marker {sep : List Char} (hsep : sep ≠ []) :
    ∀ (pre rest : List Char), containsSub sep (pre ++ sep.dropLast) = false →
      pySplit sep (pre ++ (sep ++ rest)) = pre :: pySplit sep rest
  | [], rest, _ => by simpa using pySplit_pos hsep rest
  | c :: pre', rest, h => by
    rw [List.cons_append, containsSub] at h
    obtain ⟨hp1, hrec⟩ := Bool.or_eq_false_iff.mp h
    have hp : sep.isPrefixOf (c :: (pre' ++ (sep ++ rest))) = false := by
      cases hc : sep.isPrefixOf (c :: (pre' ++ (sep ++ rest))) with
      | false => rfl
      | true =>
        exfalso
        obtain ⟨t1, ht1⟩ := (isPrefixOf_iff _ _).mp hc
        have hx : ∃ y, (c :: (pre' ++ sep.dropLast)) ++ y = c :: (pre' ++ (sep ++ rest)) := by
          refine ⟨[sep.getLast hsep] ++ rest, ?_⟩
          have hsep2 : sep.dropLast ++ [sep.getLast hsep] = sep :=
            List.dropLast_append_getLast hsep
          rw [List.cons_append]
          congr 1
          rw [List.append_assoc, ← List.append_assoc sep.dropLast, hsep2]
        have hlen : sep.length ≤ (c :: (pre' ++ sep.dropLast)).length := by
          have h1 : 1 ≤ sep.length := List.length_pos.mpr hsep
          simp only [List.length_cons, List.length_append, List.length_dropLast]
          omega
        have := prefix_of_longer t1 ht1 hx hlen
        rw [this] at hp1
        exact Bool.noConfusion hp1
    have hsplit := pySplit_neg hsep hp
    rw [List.cons_append]
    rw [hsplit, pySplit_marker hsep pre' rest hrec]
    simp

theorem beforeFirst_eq_self {sep : List Char} :
    ∀ {s : List Char}, containsSub sep s = false → beforeFirst sep s = s
  | [], _ => rfl
  | c :: t, h => by
    rw [containsSub] at h
    obtain ⟨h1, h2⟩ := Bool.or_eq_false_iff.mp h
    rw [beforeFirst, if_neg (by simp [h1]), beforeFirst_eq_self h2]

theorem beforeFirst_append_head_free {h : Char} {tl : List Char} :
    ∀ {a : List Char} (b : List Char), a.all (fun c => c != h) = true →
      beforeFirst (h :: tl) (a ++ b) = a ++ beforeFirst (h :: tl) b
  | [], b, _ => by simp
  | c :: a', b, ha => by
    rw [List.all_cons, Bool.and_eq_true] at ha
    have hbc : (h == c) = false := beq_eq_false_iff_ne.mpr (bne_iff_ne.mp ha.1).symm
    simp only [List.cons_append]
    rw [beforeFirst]
    rw [if_neg (by simp [List.isPrefixOf, hbc])]
    rw [beforeFirst_append_head_free b ha.2]

theorem beforeFirst_single_collapse (c : Char) (tl : List Char) :
    ∀ s, beforeFirst [c] (beforeFirst (c :: tl) s) = beforeFirst [c] s
  | [] => rfl
  | x :: t => by
    by_cases hp : (c :: tl).isPrefixOf (x :: t) = true
    · have hx : c = x := by
        obtain ⟨u, hu⟩ := (isPrefixOf_iff _ _).mp hp
        have hcg := congrArg (fun l => l.getD 0 c) hu
        simpa using hcg
      rw [beforeFirst_eq_nil hp]
      subst hx
      rw [show beforeFirst [c] (c :: t) = [] from
        beforeFirst_eq_nil (by simp [List.isPrefixOf])]
      rfl
    · rw [show beforeFirst (c :: tl) (x :: t) = x :: beforeFirst (c :: tl) t from by
        rw [beforeFirst, if_neg (by simp [hp])]]
      by_cases hcx : c = x
      · subst hcx
        have e1 : beforeFirst [c] (c :: beforeFirst (c :: tl) t) = [] :=
          beforeFirst_eq_nil (by simp [List.isPrefixOf])
        have e2 : beforeFirst [c] (c :: t) = [] :=
          beforeFirst_eq_nil (by simp [List.isPrefixOf])
        rw [e1, e2]
      · rw [beforeFirst, if_neg (by simp [List.isPrefixOf, hcx]),
          beforeFirst, if_neg (by simp [List.isPrefixOf, hcx]),
          beforeFirst_single_collapse c tl t]

theorem data_mk (l : List Char) : (String.mk l).data = l := rfl

theorem all_mono {p q : Char → Bool} (hpq : ∀ c, p c = true → q c = true) :
    ∀ {l : List Char}, l.all p = true → l.all q = true := by
  intro l hl
  rw [List.all_eq_true] at hl ⊢
  exact fun x hx => hpq x (hl x hx)

theorem urlSafe_ne_slash : ∀ c : Char, urlSafeChar c = true → (c != '/') = true := by
  intro c h
  rcases eq_or_ne c '/' with rfl | hne
  · exact absurd h (by decide)
  · exact bne_iff_ne.mpr hne

theorem urlSafe_ne_hash : ∀ c : Char, urlSafeChar c = true → (c != '#') = true := by
  intro c h
  rcases eq_or_ne c '#' with rfl | hne
  · exact absurd h (by decide)
  · exact bne_iff_ne.mpr hne

/-! ## What each URL function computes at and after its marker -/

/-- When the first `/org/` of the URL is the displayed one, `parse_org_id`
returns the text after it cut at the next `/` (the `/org/`-truncation
collapses into the `/`-truncation since `/org/` itself starts with `/`). -/
theorem parse_org_id_after_marker (pre T : List Char)
    (h1 : containsSub "/org/".data (pre ++ "/org/".data.dropLast) = false) :
    parse_org_id (String.mk (pre ++ ("/org/".data ++ T)))
      = some (String.mk (beforeFirst "/".data T)) := by
  have hsep : ("/org/".data : List Char) ≠ [] := by decide
  have hcont : containsSub "/org/".data (pre ++ ("/org/".data ++ T)) = true :=
    containsSub_pattern _ pre T
  simp only [parse_org_id, data_mk]
  rw [if_pos hcont]
  rw [pySplit_marker hsep pre T h1]
  simp only [List.getD_cons_succ]
  rw [pySplit_head hsep T]
  have hne := pySplit_ne_nil (by decide : ("/".data : List Char) ≠ [])
    (beforeFirst "/org/".data T)
  rw [if_neg hne]
  rw [pySplit_head (by decide : ("/".data : List Char) ≠ []) (beforeFirst "/org/".data T)]
  have e1 : ("/".data : List Char) = ['/'] := rfl
  have e2 : ("/org/".data : List Char) = '/' :: "org/".data := rfl
  rw [e1, e2, beforeFirst_single_collapse '/' "org/".data T]

/-- When the first `/project/` of the URL is the displayed one,
`parse_project_id` returns the text after it cut at the next `/project/`,
then at the first `#`, then at the first `/`. -/
theorem parse_project_id_after_marker (pre T : List Char)
    (h2 : containsSub "/project/".data (pre ++ "/project/".data.dropLast) = false) :
    parse_project_id (String.mk (pre ++ ("/project/".data ++ T)))
      = some (String.mk (beforeFirst "/".data
          (beforeFirst "#".data (beforeFirst "/project/".data T)))) := by
  have hsep : ("/project/".data : List Char) ≠ [] := by decide
  have hcont : containsSub "/project/".data (pre ++ ("/project/".data ++ T)) = true :=
    containsSub_pattern _ pre T
  simp only [parse_project_id, data_mk]
  rw [if_pos hcont]
  rw [pySplit_marker hsep pre T h2]
  simp only [List.getD_cons_succ]
  rw [pySplit_head hsep T]
  rw [pySplit_head (by decide : ("#".data : List Char) ≠ [])
    (beforeFirst "/project/".data T)]
  rw [pySplit_head (by decide : ("/".data : List Char) ≠ [])
    (beforeFirst "#".data (beforeFirst "/project/".data T))]

/-- When the first `#issue-` of the URL is the displayed one,
`parse_issue_id` percent-decodes the text after it cut at the next
`#issue-`. -/
theorem parse_issue_id_after_marker (pre Z : List Char)
    (h3 : containsSub "#issue-".data (pre ++ "#issue-".data.dropLast) = false) :
    parse_issue_id (String.mk (pre ++ ("#issue-".data ++ Z)))
      = some (String.mk (unquote (beforeFirst "#issue-".data Z))) := by
  have hsep : ("#issue-".data : List Char) ≠ [] := by decide
  have hcont : containsSub "#issue-".data (pre ++ ("#issue-".data ++ Z)) = true :=
    containsSub_pattern _ pre Z
  simp only [parse_issue_id, data_mk]
  rw [if_pos hcont]
  rw [pySplit_marker hsep pre Z h3]
  simp only [List.getD_cons_succ]
  rw [pySplit_head hsep Z]

/-! ## Claim C1 -/

/-- Claim C1, counterexample to the claim as stated.  The first URL contains
the pattern `/org/X/project/Y#issue-Z` with `X = "b"`, `Y = "c"`, `Z = "d"`
(preceded by the prefix `/org/a`), yet `parse_org_id` returns `"a"`, not
`"b"`: an earlier occurrence of a marker wins.  The second URL contains the
pattern with `X = "b"`, `Y = "c"`, `Z = "d"` (followed by `"x"`), yet
`parse_issue_id` returns `"dx"`, not the percent-decoding of `"d"`: the
fragment is not cut after `Z`. -/
theorem parse_pattern_prefix_counterexample :
    parse_org_id "/org/a/org/b/project/c#issue-d" = some "a"
    ∧ parse_org_id "/org/a/org/b/project/c#issue-d" ≠ some "b"
    ∧ parse_issue_id "/org/b/project/c#issue-dx" = some "dx"
    ∧ parse_issue_id "/org/b/project/c#issue-dx" ≠ some (String.mk (unquote "d".data)) := by
  refine ⟨rfl, by decide, rfl, by decide⟩

/-- Claim C1 (amended): for every URL of the form
`pre ++ "/org/" ++ X ++ "/project/" ++ Y ++ "#issue-" ++ Z` — the pattern
reaching the end of the URL — where `X` and `Y` are non-empty and contain
no `/` or `#`, `Z` is a percent-encoded string (unreserved characters and
`%`), and the three displayed markers are the first occurrences of those
markers in the URL, `parse_org_id` returns `X`, `parse_project_id` returns
`Y`, and `parse_issue_id` returns the percent-decoding of `Z`. -/
theorem parse_pattern_extracts_identifiers
    (pre X Y Z : List Char)
    (_hX : X ≠ []) (hXc : X.all (fun c => c != '/' && c != '#') = true)
    (_hY : Y ≠ []) (hYc : Y.all (fun c => c != '/' && c != '#') = true)
    (hZ : Z.all urlSafeChar = true)
    (h1 : containsSub "/org/".data (pre ++ "/org/".data.dropLast) = false)
    (h2 : containsSub "/project/".data
      ((pre ++ ("/org/".data ++ X)) ++ "/project/".data.dropLast) = false)
    (h3 : containsSub "#issue-".data
      ((pre ++ ("/org/".data ++ (X ++ ("/project/".data ++ Y))))
        ++ "#issue-".data.dropLast) = false) :
    parse_org_id (String.mk (pre ++ ("/org/".data
        ++ (X ++ ("/project/".data ++ (Y ++ ("#issue-".data ++ Z)))))))
      = some (String.mk X)
    ∧ parse_project_id (String.mk (pre ++ ("/org/".data
        ++ (X ++ ("/project/".data ++ (Y ++ ("#issue-".data ++ Z)))))))
      = some (String.mk Y)
    ∧ parse_issue_id (String.mk (pre ++ ("/org/".data
        ++ (X ++ ("/project/".data ++ (Y ++ ("#issue-".data ++ Z)))))))
      = some (String.mk (unquote Z)) := by
  have eslash : ("/".data : List Char) = ['/'] := rfl
  have ehash : ("#".data : List Char) = ['#'] := rfl
  have hXslash : X.all (fun c => c != '/') = true :=
    all_mono (fun c h => ((Bool.and_eq_true _ _).mp h).1) hXc
  have hYslash : Y.all (fun c => c != '/') = true :=
    all_mono (fun c h => ((Bool.and_eq_true _ _).mp h).1) hYc
  have hYhash : Y.all (fun c => c != '#') = true :=
    all_mono (fun c h => ((Bool.and_eq_true _ _).mp h).2) hYc
  have hZslash : Z.all (fun c => c != '/') = true := all_mono urlSafe_ne_slash hZ
  have hZhash : Z.all (fun c => c != '#') = true := all_mono urlSafe_ne_hash hZ
  refine ⟨?_, ?_, ?_⟩
  · rw [parse_org_id_after_marker pre _ h1]
    congr 1
    apply congrArg
    rw [eslash, beforeFirst_append_head_free _ hXslash]
    have e : "/project/".data ++ (Y ++ ("#issue-".data ++ Z))
        = '/' :: ("project/".data ++ (Y ++ ("#issue-".data ++ Z))) := rfl
    rw [e, beforeFirst_eq_nil (by simp [List.isPrefixOf]), List.append_nil]
  · have hL2 : pre ++ ("/org/".data
        ++ (X ++ ("/project/".data ++ (Y ++ ("#issue-".data ++ Z)))))
        = (pre ++ ("/org/".data ++ X))
          ++ ("/project/".data ++ (Y ++ ("#issue-".data ++ Z))) := by
      simp [List.append_assoc]
    rw [hL2, parse_project_id_after_marker _ _ h2]
    congr 1
    apply congrArg
    have hT2all : (Y ++ ("#issue-".data ++ Z)).all (fun c => c != '/') = true := by
      rw [List.all_append, List.all_append]
      rw [hYslash, hZslash]
      rw [show ("#issue-".data.all (fun c => c != '/')) = true from by decide]
      rfl
    have hbfpm : beforeFirst "/project/".data (Y ++ ("#issue-".data ++ Z))
        = Y ++ ("#issue-".data ++ Z) := by
      apply beforeFirst_eq_self
      rw [show ("/project/".data : List Char) = '/' :: "project/".data from rfl]
      exact containsSub_head_free hT2all
    rw [hbfpm]
    have hbfhash : beforeFirst "#".data (Y ++ ("#issue-".data ++ Z)) = Y := by
      rw [ehash, beforeFirst_append_head_free _ hYhash]
      rw [show "#issue-".data ++ Z = '#' :: ("issue-".data ++ Z) from rfl]
      rw [beforeFirst_eq_nil (by simp [List.isPrefixOf]), List.append_nil]
    rw [hbfhash, eslash]
    exact beforeFirst_eq_self (containsSub_head_free hYslash)
  · have hL3 : pre ++ ("/org/".data
        ++ (X ++ ("/project/".data ++ (Y ++ ("#issue-".data ++ Z)))))
        = (pre ++ ("/org/".data ++ (X ++ ("/project/".data ++ Y))))
          ++ ("#issue-".data ++ Z) := by
      simp [List.append_assoc]
    rw [hL3, parse_issue_id_after_marker _ _ h3]
    congr 1
    apply congrArg
    apply congrArg
    apply beforeFirst_eq_self
    rw [show ("#issue-".data : List Char) = '#' :: "issue-".data from rfl]
    exact containsSub_head_free hZhash

/-- Claim C1, witness: a well-formed URL with a marker-free prefix. -/
theorem parse_pattern_extracts_identifiers_witness :
    parse_org_id "https://app.snyk.io/org/my-org/project/proj-1#issue-a%3Ab" = some "my-org"
    ∧ parse_project_id "https://app.snyk.io/org/my-org/project/proj-1#issue-a%3Ab"
      = some "proj-1"
    ∧ parse_issue_id "https://app.snyk.io/org/my-org/project/proj-1#issue-a%3Ab"
      = some "a:b" := by
  have h := parse_pattern_extracts_identifiers "https://app.snyk.io".data "my-org".data
    "proj-1".data "a%3Ab".data (by decide) (by decide) (by decide) (by decide)
    (by decide) (by decide) (by decide) (by decide)
  exact h

/-! ## Claim C5 -/

/-- Claim C5, counterexample.  In `"x/org//y"` the segment following `/org/`
(up to the next `/`) is empty, and in `"x/project/#y"` the text after
`/project/` truncated at the first `#` is empty; the claim says both
parses return nothing, but the code returns `some ""`. -/
theorem parse_empty_segment_counterexample :
    parse_org_id "x/org//y" = some "" ∧ parse_org_id "x/org//y" ≠ none
    ∧ parse_project_id "x/project/#y" = some ""
    ∧ parse_project_id "x/project/#y" ≠ none := by
  refine ⟨rfl, by decide, rfl, by decide⟩

/-- Claim C5 (amended): `parse_org_id` returns nothing exactly when `/org/`
is absent, and `parse_project_id` returns nothing exactly when `/project/`
is absent; when the marker is present but the following segment (up to the
next `/`, resp. up to the first `#` or `/`) is empty, they return the empty
string — a falsy value in Python, but not `None`. -/
theorem parse_marker_absent_or_empty_segment :
    (∀ url : String, parse_org_id url = none ↔ containsSub "/org/".data url.data = false)
    ∧ (∀ url : String,
        parse_project_id url = none ↔ containsSub "/project/".data url.data = false)
    ∧ (∀ pre rest : List Char,
        containsSub "/org/".data (pre ++ "/org/".data.dropLast) = false →
        (rest = [] ∨ ∃ t, rest = '/' :: t) →
        parse_org_id (String.mk (pre ++ ("/org/".data ++ rest))) = some "")
    ∧ (∀ pre rest : List Char,
        containsSub "/project/".data (pre ++ "/project/".data.dropLast) = false →
        (rest = [] ∨ (∃ t, rest = '/' :: t) ∨ (∃ t, rest = '#' :: t)) →
        parse_project_id (String.mk (pre ++ ("/project/".data ++ rest))) = some "") := by
  refine ⟨?_, ?_, ?_, ?_⟩
  · intro url
    constructor
    · intro hnone
      cases hcs : containsSub "/org/".data url.data with
      | false => rfl
      | true =>
        exfalso
        have hsome : parse_org_id url ≠ none := by
          simp only [parse_org_id]
          rw [if_pos hcs,
            if_neg (pySplit_ne_nil (by decide : ("/".data : List Char) ≠ []) _)]
          simp
        exact hsome hnone
    · intro h
      simp only [parse_org_id]
      rw [if_neg (by simp [h])]
  · intro url
    constructor
    · intro hnone
      cases hcs : containsSub "/project/".data url.data with
      | false => rfl
      | true =>
        exfalso
        have hsome : parse_project_id url ≠ none := by
          simp only [parse_project_id]
          rw [if_pos hcs]
          simp
        exact hsome hnone
    · intro h
      simp only [parse_project_id]
      rw [if_neg (by simp [h])]
  · intro pre rest h1 hr
    rw [parse_org_id_after_marker pre rest h1]
    rcases hr with rfl | ⟨t, rfl⟩
    · rfl
    · rw [show ("/".data : List Char) = ['/'] from rfl,
        beforeFirst_eq_nil (by simp [List.isPrefixOf])]
  · intro pre rest h2 hr
    rw [parse_project_id_after_marker pre rest h2]
    rcases hr with rfl | ⟨t, rfl⟩ | ⟨t, rfl⟩
    · rfl
    · by_cases hp : "/project/".data.isPrefixOf ('/' :: t) = true
      · rw [beforeFirst_eq_nil hp]
        rfl
      · rw [show beforeFirst "/project/".data ('/' :: t)
            = '/' :: beforeFirst "/project/".data t from by
          rw [beforeFirst, if_neg (by simp [hp])]]
        rw [show beforeFirst "#".data ('/' :: beforeFirst "/project/".data t)
            = '/' :: beforeFirst "#".data (beforeFirst "/project/".data t) from by
          rw [beforeFirst, if_neg (by simp [List.isPrefixOf])]]
        rw [show ("/".data : List Char) = ['/'] from rfl,
          beforeFirst_eq_nil (by simp [List.isPrefixOf])]
    · rw [show beforeFirst "/project/".data ('#' :: t)
          = '#' :: beforeFirst "/project/".data t from by
        rw [beforeFirst, if_neg (by simp [List.isPrefixOf])]]
      rw [show beforeFirst "#".data ('#' :: beforeFirst "/project/".data t) = [] from
        beforeFirst_eq_nil (by simp [List.isPrefixOf])]
      rfl

/-- Claim C5, witness: a URL with no markers parses to nothing, URLs whose
marker is present never parse to nothing (even with an empty segment), and
URLs with an empty segment after the marker parse to the empty string. -/
theorem parse_marker_absent_or_empty_segment_witness :
    parse_org_id "https://example.com" = none
    ∧ parse_project_id "https://example.com" = none
    ∧ parse_org_id "a/org/b" ≠ none
    ∧ parse_project_id "a/project/b" ≠ none
    ∧ parse_org_id "a/org//b" = some ""
    ∧ parse_project_id "a/project//b" = some "" := by
  refine ⟨(parse_marker_absent_or_empty_segment.1 "https://example.com").mpr (by decide),
    (parse_marker_absent_or_empty_segment.2.1 "https://example.com").mpr (by decide),
    fun h => absurd ((parse_marker_absent_or_empty_segment.1 "a/org/b").mp h) (by decide),
    fun h => absurd ((parse_marker_absent_or_empty_segment.2.1 "a/project/b").mp h)
      (by decide),
    ?_, ?_⟩
  · have h := parse_marker_absent_or_empty_segment.2.2.1 "a".data "/b".data
      (by decide) (Or.inr ⟨"b".data, rfl⟩)
    exact h
  · have h := parse_marker_absent_or_empty_segment.2.2.2 "a".data "/b".data
      (by decide) (Or.inr (Or.inl ⟨"b".data, rfl⟩))
    exact h

/-! ## Claim C6 -/

/-- Claim C6, counterexample.  In `"a#issue-b#issue-c"` the marker occurs
twice; everything after the first occurrence is `"b#issue-c"`, but the code
(`split("#issue-")[1]`) returns only `"b"`, the part between the first and
second occurrences. -/
theorem parse_issue_second_marker_counterexample :
    parse_issue_id "a#issue-b#issue-c" = some "b"
    ∧ parse_issue_id "a#issue-b#issue-c" ≠ some (String.mk (unquote "b#issue-c".data)) := by
  refine ⟨rfl, by decide⟩

/-- Claim C6 (amended): when `#issue-` is absent `parse_issue_id` returns
nothing; otherwise — writing the URL as `pre ++ "#issue-" ++ z` with the
displayed marker its first occurrence — it returns the percent-decoding of
`z` truncated at the next occurrence of `#issue-` (not of everything after
the first occurrence). -/
theorem parse_issue_truncated_at_next_marker :
    (∀ url : String, containsSub "#issue-".data url.data = false → parse_issue_id url = none)
    ∧ (∀ pre z : List Char,
        containsSub "#issue-".data (pre ++ "#issue-".data.dropLast) = false →
        parse_issue_id (String.mk (pre ++ ("#issue-".data ++ z)))
          = some (String.mk (unquote (beforeFirst "#issue-".data z)))) := by
  refine ⟨?_, ?_⟩
  · intro url h
    simp only [parse_issue_id]
    rw [if_neg (by simp [h])]
  · intro pre z h3
    exact parse_issue_id_after_marker pre z h3

/-- Claim C6, witness: absent marker, and a doubled marker where the result
is the decoded text between the two occurrences. -/
theorem parse_issue_truncated_at_next_marker_witness :
    parse_issue_id "https://example.com" = none
    ∧ parse_issue_id "a#issue-b%2Fc#issue-d"
      = some (String.mk (unquote (beforeFirst "#issue-".data "b%2Fc#issue-d".data))) := by
  refine ⟨parse_issue_truncated_at_next_marker.1 "https://example.com" (by decide),
    parse_issue_truncated_at_next_marker.2 "a".data "b%2Fc#issue-d".data (by decide)⟩

/-! ## The retry loop -/

theorem call_snyk_loop (o p iid tok rt rty : String) (dif : Bool) (ex : Option String)
    (ip : String) (responses : Nat → MockResponse) (m : Int) :
    call_snyk_ignore_api o p iid tok rt rty dif ex ip responses m
      = ⟨snykIgnoreUrl o p iid,
         [("Authorization", "token " ++ tok), ("Content-Type", "application/json")],
         mkIgnorePayload rt rty dif ip ex,
         (snykIgnoreLoop responses 0 ((if m ≤ 0 then 1 else m).toNat - 1) []).posts,
         (snykIgnoreLoop responses 0 ((if m ≤ 0 then 1 else m).toNat - 1) []).sleeps,
         (snykIgnoreLoop responses 0 ((if m ≤ 0 then 1 else m).toNat - 1) []).outcome⟩ := rfl

theorem snykIgnoreLoop_not_429 (responses : Nat → MockResponse) (i remaining : Nat)
    (sleeps : List Int) (h : (responses i).status_code ≠ 429) :
    snykIgnoreLoop responses i remaining sleeps
      = ⟨i + 1, sleeps.reverse, Except.ok (responses i)⟩ := by
  rw [snykIgnoreLoop]
  rw [if_neg (by simp [h])]

theorem snykIgnoreLoop_429_bad (responses : Nat → MockResponse) (i remaining : Nat)
    (sleeps : List Int) (h : (responses i).status_code = 429)
    (hr : pyInt (retryAfterRaw (responses i)) = none) :
    snykIgnoreLoop responses i remaining sleeps
      = ⟨i + 1, sleeps.reverse, Except.error valueErrorMsg⟩ := by
  rw [snykIgnoreLoop]
  rw [if_pos (by simp [h]), hr]

theorem snykIgnoreLoop_429_last (responses : Nat → MockResponse) (i : Nat)
    (sleeps : List Int) (n : Int) (h : (responses i).status_code = 429)
    (hr : pyInt (retryAfterRaw (responses i)) = some n) :
    snykIgnoreLoop responses i 0 sleeps
      = ⟨i + 1, (n :: sleeps).reverse, Except.ok (responses i)⟩ := by
  rw [snykIgnoreLoop]
  rw [if_pos (by simp [h]), hr]

theorem snykIgnoreLoop_429_step (responses : Nat → MockResponse) (i r : Nat)
    (sleeps : List Int) (n : Int) (h : (responses i).status_code = 429)
    (hr : pyInt (retryAfterRaw (responses i)) = some n) :
    snykIgnoreLoop responses i (r + 1) sleeps
      = snykIgnoreLoop responses (i + 1) r (n :: sleeps) := by
  rw [snykIgnoreLoop]
  rw [if_pos (by simp [h]), hr]

theorem snykIgnoreLoop_posts (responses : Nat → MockResponse) :
    ∀ (remaining i : Nat) (sleeps : List Int),
      i + 1 ≤ (snykIgnoreLoop responses i remaining sleeps).posts := by
  intro remaining
  induction remaining with
  | zero =>
    intro i sleeps
    by_cases h : (responses i).status_code = 429
    · cases hr : pyInt (retryAfterRaw (responses i)) with
      | none => rw [snykIgnoreLoop_429_bad _ _ _ _ h hr]
      | some n => rw [snykIgnoreLoop_429_last _ _ _ _ h hr]
    · rw [snykIgnoreLoop_not_429 _ _ _ _ h]
  | succ r ih =>
    intro i sleeps
    by_cases h : (responses i).status_code = 429
    · cases hr : pyInt (retryAfterRaw (responses i)) with
      | none => rw [snykIgnoreLoop_429_bad _ _ _ _ h hr]
      | some n =>
        rw [snykIgnoreLoop_429_step _ _ _ _ _ h hr]
        exact Nat.le_trans (Nat.le_succ _) (ih (i + 1) (n :: sleeps))
    · rw [snykIgnoreLoop_not_429 _ _ _ _ h]

/-! ## Claim C2 -/

/-- Claim C2: with responses 429, 429, 200 and budget 3 the client makes
exactly 3 POSTs, sleeps twice for the durations carried by the two 429
responses, and returns the 200 response; with responses 429, 429, 429 and
budget 2 it makes exactly 2 POSTs and returns the last received 429 rather
than raising; a budget of 0 or less is coerced to 1, and at least one POST
is always made whatever the budget. -/
theorem retry_budget_behavior
    (o p iid tok rt rty : String) (dif : Bool) (ex : Option String) (ip : String)
    (r0 r1 r2 d : MockResponse) (n0 n1 : Int)
    (h0 : r0.status_code = 429) (h0r : pyInt (retryAfterRaw r0) = some n0)
    (h1 : r1.status_code = 429) (h1r : pyInt (retryAfterRaw r1) = some n1)
    (h2 : r2.status_code = 200) :
    ((call_snyk_ignore_api o p iid tok rt rty dif ex ip (streamOf [r0, r1, r2] d) 3).posts = 3
      ∧ (call_snyk_ignore_api o p iid tok rt rty dif ex ip
          (streamOf [r0, r1, r2] d) 3).sleeps = [n0, n1]
      ∧ (call_snyk_ignore_api o p iid tok rt rty dif ex ip
          (streamOf [r0, r1, r2] d) 3).outcome = Except.ok r2)
    ∧ ((call_snyk_ignore_api o p iid tok rt rty dif ex ip (streamOf [r0, r1, r1] d) 2).posts = 2
      ∧ (call_snyk_ignore_api o p iid tok rt rty dif ex ip
          (streamOf [r0, r1, r1] d) 2).outcome = Except.ok r1)
    ∧ (∀ m : Int, m ≤ 0 →
        ∀ responses : Nat → MockResponse,
          call_snyk_ignore_api o p iid tok rt rty dif ex ip responses m
            = call_snyk_ignore_api o p iid tok rt rty dif ex ip responses 1)
    ∧ (∀ (m : Int) (responses : Nat → MockResponse),
        1 ≤ (call_snyk_ignore_api o p iid tok rt rty dif ex ip responses m).posts) := by
  have hm3 : (if (3 : Int) ≤ 0 then (1 : Int) else 3).toNat - 1 = 2 := by decide
  have hm2 : (if (2 : Int) ≤ 0 then (1 : Int) else 2).toNat - 1 = 1 := by decide
  have eloop3 : snykIgnoreLoop (streamOf [r0, r1, r2] d) 0 2 []
      = ⟨3, [n0, n1], Except.ok r2⟩ := by
    rw [snykIgnoreLoop_429_step (streamOf [r0, r1, r2] d) 0 1 [] n0 h0 h0r]
    rw [snykIgnoreLoop_429_step (streamOf [r0, r1, r2] d) 1 0 [n0] n1 h1 h1r]
    rw [snykIgnoreLoop_not_429 (streamOf [r0, r1, r2] d) 2 0 [n1, n0]
      (by show r2.status_code ≠ 429; omega)]
    rfl
  have eloop2 : snykIgnoreLoop (streamOf [r0, r1, r1] d) 0 1 []
      = ⟨2, [n0, n1], Except.ok r1⟩ := by
    rw [snykIgnoreLoop_429_step (streamOf [r0, r1, r1] d) 0 0 [] n0 h0 h0r]
    rw [snykIgnoreLoop_429_last (streamOf [r0, r1, r1] d) 1 [n0] n1 h1 h1r]
    rfl
  refine ⟨⟨?_, ?_, ?_⟩, ⟨?_, ?_⟩, ?_, ?_⟩
  · rw [call_snyk_loop, hm3, eloop3]
  · rw [call_snyk_loop, hm3, eloop3]
  · rw [call_snyk_loop, hm3, eloop3]
  · rw [call_snyk_loop, hm2, eloop2]
  · rw [call_snyk_loop, hm2, eloop2]
  · intro m hm responses
    rw [call_snyk_loop, call_snyk_loop]
    rw [if_pos hm, if_neg (by decide : ¬((1 : Int) ≤ 0))]
  · intro m responses
    rw [call_snyk_loop]
    simpa using snykIgnoreLoop_posts responses _ 0 []

/-- Claim C2, witness: concrete responses with `Retry-After` 1 and 2. -/
theorem retry_budget_behavior_witness :
    (call_snyk_ignore_api "o" "p" "i" "tok" "r" "wont-fix" false none "*"
        (streamOf [MockResponse.mk 429 [("Retry-After", "1")] "",
          MockResponse.mk 429 [("Retry-After", "2")] "",
          MockResponse.mk 200 [] "ok"] (MockResponse.mk 200 [] "ok")) 3).posts = 3
    ∧ (call_snyk_ignore_api "o" "p" "i" "tok" "r" "wont-fix" false none "*"
        (streamOf [MockResponse.mk 429 [("Retry-After", "1")] "",
          MockResponse.mk 429 [("Retry-After", "2")] "",
          MockResponse.mk 200 [] "ok"] (MockResponse.mk 200 [] "ok")) 3).sleeps = [1, 2]
    ∧ (call_snyk_ignore_api "o" "p" "i" "tok" "r" "wont-fix" false none "*"
        (streamOf [MockResponse.mk 429 [("Retry-After", "1")] "",
          MockResponse.mk 429 [("Retry-After", "2")] "",
          MockResponse.mk 200 [] "ok"] (MockResponse.mk 200 [] "ok")) 3).outcome
      = Except.ok (MockResponse.mk 200 [] "ok")
    ∧ (call_snyk_ignore_api "o" "p" "i" "tok" "r" "wont-fix" false none "*"
        (streamOf [MockResponse.mk 429 [("Retry-After", "1")] "",
          MockResponse.mk 429 [("Retry-After", "2")] "",
          MockResponse.mk 429 [("Retry-After", "2")] ""]
          (MockResponse.mk 200 [] "ok")) 2).posts = 2
    ∧ (call_snyk_ignore_api "o" "p" "i" "tok" "r" "wont-fix" false none "*"
        (streamOf [MockResponse.mk 429 [("Retry-After", "1")] "",
          MockResponse.mk 429 [("Retry-After", "2")] "",
          MockResponse.mk 429 [("Retry-After", "2")] ""]
          (MockResponse.mk 200 [] "ok")) 2).outcome
      = Except.ok (MockResponse.mk 429 [("Retry-After", "2")] "")
    ∧ call_snyk_ignore_api "o" "p" "i" "tok" "r" "wont-fix" false none "*"
        (streamOf [] (MockResponse.mk 200 [] "ok")) (-2)
      = call_snyk_ignore_api "o" "p" "i" "tok" "r" "wont-fix" false none "*"
        (streamOf [] (MockResponse.mk 200 [] "ok")) 1
    ∧ 1 ≤ (call_snyk_ignore_api "o" "p" "i" "tok" "r" "wont-fix" false none "*"
        (streamOf [] (MockResponse.mk 200 [] "ok")) 0).posts := by
  have h := retry_budget_behavior "o" "p" "i" "tok" "r" "wont-fix" false none "*"
    (MockResponse.mk 429 [("Retry-After", "1")] "")
    (MockResponse.mk 429 [("Retry-After", "2")] "")
    (MockResponse.mk 200 [] "ok") (MockResponse.mk 200 [] "ok") 1 2
    rfl rfl rfl rfl rfl
  exact ⟨h.1.1, h.1.2.1, h.1.2.2, h.2.1.1, h.2.1.2,
    h.2.2.1 (-2) (by decide) (streamOf [] (MockResponse.mk 200 [] "ok")),
    h.2.2.2 0 (streamOf [] (MockResponse.mk 200 [] "ok"))⟩

/-! ## Claim C7 -/

/-- Claim C7: whenever the first response has any status other than 429
(2xx or a non-429 error alike), the client returns it after exactly one
POST, with no sleep and no retry, whatever the retry budget. -/
theorem non_429_returns_immediately
    (o p iid tok rt rty : String) (dif : Bool) (ex : Option String) (ip : String)
    (responses : Nat → MockResponse) (m : Int)
    (h : (responses 0).status_code ≠ 429) :
    (call_snyk_ignore_api o p iid tok rt rty dif ex ip responses m).posts = 1
    ∧ (call_snyk_ignore_api o p iid tok rt rty dif ex ip responses m).sleeps = []
    ∧ (call_snyk_ignore_api o p iid tok rt rty dif ex ip responses m).outcome
      = Except.ok (responses 0) := by
  refine ⟨?_, ?_, ?_⟩
  · rw [call_snyk_loop, snykIgnoreLoop_not_429 responses 0 _ [] h]
  · rw [call_snyk_loop, snykIgnoreLoop_not_429 responses 0 _ [] h]
    rfl
  · rw [call_snyk_loop, snykIgnoreLoop_not_429 responses 0 _ [] h]

/-- Claim C7, witness: a 500 response with a generous budget. -/
theorem non_429_returns_immediately_witness :
    (call_snyk_ignore_api "o" "p" "i" "tok" "r" "wont-fix" false none "*"
        (fun _ => MockResponse.mk 500 [] "err") 5).posts = 1
    ∧ (call_snyk_ignore_api "o" "p" "i" "tok" "r" "wont-fix" false none "*"
        (fun _ => MockResponse.mk 500 [] "err") 5).sleeps = []
    ∧ (call_snyk_ignore_api "o" "p" "i" "tok" "r" "wont-fix" false none "*"
        (fun _ => MockResponse.mk 500 [] "err") 5).outcome
      = Except.ok (MockResponse.mk 500 [] "err") :=
  non_429_returns_immediately "o" "p" "i" "tok" "r" "wont-fix" false none "*"
    (fun _ => MockResponse.mk 500 [] "err") 5 (by decide)

/-! ## Claim C3 -/

/-- Claim C3 is wrong about the code: on a 429 whose `Retry-After` is not
numeric, `int()` raises an unhandled `ValueError` after the first POST and
before any sleep — the client neither defaults to 10 seconds nor reports a
handled error.  (When the header is absent the default `"10"` does apply:
the last two conjuncts show one POST, a 10-second sleep, and the 429
returned once the budget is spent.) -/
theorem nonnumeric_retry_after_raises :
    pyInt "soon" = none
    ∧ (call_snyk_ignore_api "o" "p" "i" "tok" "r" "wont-fix" false none "*"
        (fun _ => MockResponse.mk 429 [("Retry-After", "soon")] "") 3).outcome
      = Except.error valueErrorMsg
    ∧ (call_snyk_ignore_api "o" "p" "i" "tok" "r" "wont-fix" false none "*"
        (fun _ => MockResponse.mk 429 [("Retry-After", "soon")] "") 3).posts = 1
    ∧ (call_snyk_ignore_api "o" "p" "i" "tok" "r" "wont-fix" false none "*"
        (fun _ => MockResponse.mk 429 [("Retry-After", "soon")] "") 3).sleeps = []
    ∧ (call_snyk_ignore_api "o" "p" "i" "tok" "r" "wont-fix" false none "*"
        (fun _ => MockResponse.mk 429 [] "") 1).sleeps = [10]
    ∧ (call_snyk_ignore_api "o" "p" "i" "tok" "r" "wont-fix" false none "*"
        (fun _ => MockResponse.mk 429 [] "") 1).outcome
      = Except.ok (MockResponse.mk 429 [] "") :=
  ⟨rfl, rfl, rfl, rfl, rfl, rfl⟩

/-! ## The CSV processor -/

theorem truthy_getD {o : Option String} (h : pyTruthyStrOpt o = true) : o.getD "" ≠ "" := by
  cases o with
  | none => simp [pyTruthyStrOpt] at h
  | some s => simpa [pyTruthyStrOpt, bne_iff_ne] using h

theorem headD_mem {α : Type} {l : List α} (d : α) (h : l ≠ []) : l.headD d ∈ l := by
  cases l with
  | nil => exact absurd rfl h
  | cons a t => simp

/-! ## Claim C4 -/

/-- Claim C4: the effective reason is the static text, a space, and the
column text when both are present; the column text alone when only it is
present; the static text alone when no column is configured or the column
value is empty; and when the column value is empty and there is no static
text, the row is skipped with zero API calls and processing continues. -/
theorem reason_composition :
    (∀ (static col : String) (row : List (String × String)),
        static ≠ "" → col ≠ "" →
        pyStrip ((List.lookup col row).getD "") ≠ "" →
        rowReason (some static) (some col) row
          = some (static ++ " " ++ pyStrip ((List.lookup col row).getD "")))
    ∧ (∀ (col : String) (row : List (String × String)),
        col ≠ "" → pyStrip ((List.lookup col row).getD "") ≠ "" →
        rowReason none (some col) row = some (pyStrip ((List.lookup col row).getD "")))
    ∧ (∀ (static : String) (row : List (String × String)),
        static ≠ "" → rowReason (some static) none row = some static)
    ∧ (∀ (static col : String) (row : List (String × String)),
        static ≠ "" → col ≠ "" →
        pyStrip ((List.lookup col row).getD "") = "" →
        rowReason (some static) (some col) row = some static)
    ∧ (∀ (col : String) (row : List (String × String))
        (rest : List (List (String × String))) (idx : Nat)
        (tok rty : String) (dif : Bool) (ex : Option String) (ip : String)
        (responses : Nat → MockResponse),
        col ≠ "" → pyStrip ((List.lookup col row).getD "") = "" →
        pyStrip ((List.lookup "ISSUE_URL" row).getD "") ≠ "" →
        pyTruthyStrOpt (parse_org_id (pyStrip ((List.lookup "ISSUE_URL" row).getD ""))) = true →
        pyTruthyStrOpt (parse_project_id (pyStrip ((List.lookup "ISSUE_URL" row).getD ""))) = true →
        pyTruthyStrOpt (parse_issue_id (pyStrip ((List.lookup "ISSUE_URL" row).getD ""))) = true →
        (process_csv_rows tok none rty dif ex ip (some col) responses (row :: rest) idx).calls
          = (process_csv_rows tok none rty dif ex ip (some col) responses rest idx).calls
        ∧ (process_csv_rows tok none rty dif ex ip (some col) responses (row :: rest) idx).outcomes
          = RowOutcome.skippedMissingText
            :: (process_csv_rows tok none rty dif ex ip (some col) responses rest idx).outcomes) := by
  refine ⟨?_, ?_, ?_, ?_, ?_⟩
  · intro static col row hs hc hct
    simp [rowReason, pyTruthyStrOpt, hc, hs, hct]
  · intro col row hc hct
    simp [rowReason, pyTruthyStrOpt, hc, hct]
  · intro static row hs
    simp [rowReason, pyTruthyStrOpt]
  · intro static col row hs hc hct
    simp [rowReason, pyTruthyStrOpt, hc, hs, hct]
  · intro col row rest idx tok rty dif ex ip responses hc hct hu ho hp hi
    have hrr : rowReason none (some col) row = none := by
      simp [rowReason, pyTruthyStrOpt, hc, hct]
    have hu' : ¬((pyStrip ((List.lookup "ISSUE_URL" row).getD "") == "") = true) := by
      simp [hu]
    have hg : ¬(pyTruthyStrOpt (parse_org_id (pyStrip ((List.lookup "ISSUE_URL" row).getD ""))) = false
        ∨ pyTruthyStrOpt (parse_project_id (pyStrip ((List.lookup "ISSUE_URL" row).getD ""))) = false
        ∨ pyTruthyStrOpt (parse_issue_id (pyStrip ((List.lookup "ISSUE_URL" row).getD ""))) = false) := by
      simp [ho, hp, hi]
    constructor <;>
      · simp only [process_csv_rows]
        rw [if_neg hu', if_neg hg, hrr]

/-- Claim C4, witness: the four composition cases on concrete rows plus a
row skipped for lack of any reason text. -/
theorem reason_composition_witness :
    rowReason (some "Base reason:") (some "IGNORE_REASON")
        [("IGNORE_REASON", "Custom reason")] = some "Base reason: Custom reason"
    ∧ rowReason none (some "IGNORE_REASON") [("IGNORE_REASON", "Custom reason")]
      = some "Custom reason"
    ∧ rowReason (some "why") none [("IGNORE_REASON", "Custom reason")] = some "why"
    ∧ rowReason (some "why") (some "IGNORE_REASON") [("OTHER", "x")] = some "why"
    ∧ (process_csv_rows "tok" none "wont-fix" false none "*" (some "IGNORE_REASON")
        (fun _ => MockResponse.mk 200 [] "")
        [[("ISSUE_URL", "https://app.snyk.io/org/o1/project/p1#issue-i1")]] 0).calls
      = (process_csv_rows "tok" none "wont-fix" false none "*" (some "IGNORE_REASON")
        (fun _ => MockResponse.mk 200 [] "") [] 0).calls
    ∧ (process_csv_rows "tok" none "wont-fix" false none "*" (some "IGNORE_REASON")
        (fun _ => MockResponse.mk 200 [] "")
        [[("ISSUE_URL", "https://app.snyk.io/org/o1/project/p1#issue-i1")]] 0).outcomes
      = RowOutcome.skippedMissingText
        :: (process_csv_rows "tok" none "wont-fix" false none "*" (some "IGNORE_REASON")
          (fun _ => MockResponse.mk 200 [] "") [] 0).outcomes := by
  have h5 := reason_composition.2.2.2.2 "IGNORE_REASON"
    [("ISSUE_URL", "https://app.snyk.io/org/o1/project/p1#issue-i1")] [] 0
    "tok" "wont-fix" false none "*" (fun _ => MockResponse.mk 200 [] "")
    (by decide) (by decide) (by decide) (by decide) (by decide) (by decide)
  exact ⟨reason_composition.1 "Base reason:" "IGNORE_REASON"
      [("IGNORE_REASON", "Custom reason")] (by decide) (by decide) (by decide),
    reason_composition.2.1 "IGNORE_REASON" [("IGNORE_REASON", "Custom reason")]
      (by decide) (by decide),
    reason_composition.2.2.1 "why" [("IGNORE_REASON", "Custom reason")] (by decide),
    reason_composition.2.2.2.1 "why" "IGNORE_REASON" [("OTHER", "x")]
      (by decide) (by decide) (by decide),
    h5.1, h5.2⟩

/-! ## Claim C8 -/

/-- Claim C8: a row whose `ISSUE_URL` is missing or empty after trimming
contributes no API call, is recorded as skipped for the missing URL, and
processing continues with the remaining rows at the same transport
position. -/
theorem missing_url_row_skipped
    (tok : String) (rt : Option String) (rty : String) (dif : Bool) (ex : Option String)
    (ip : String) (itc : Option String) (responses : Nat → MockResponse)
    (row : List (String × String)) (rest : List (List (String × String))) (idx : Nat)
    (h : pyStrip ((List.lookup "ISSUE_URL" row).getD "") = "") :
    process_csv_rows tok rt rty dif ex ip itc responses (row :: rest) idx
      = ⟨(process_csv_rows tok rt rty dif ex ip itc responses rest idx).calls,
         RowOutcome.skippedMissingUrl
           :: (process_csv_rows tok rt rty dif ex ip itc responses rest idx).outcomes,
         (process_csv_rows tok rt rty dif ex ip itc responses rest idx).exc⟩ := by
  simp only [process_csv_rows]
  rw [if_pos (by simp [h])]

/-- Claim C8, witness: a row with no `ISSUE_URL` column, followed by a
normal row. -/
theorem missing_url_row_skipped_witness :
    process_csv_rows "tok" (some "why") "wont-fix" false none "*" none
        (fun _ => MockResponse.mk 200 [] "")
        [[("NOTE", "x")], [("ISSUE_URL", "https://app.snyk.io/org/o1/project/p1#issue-i1")]] 0
      = ⟨(process_csv_rows "tok" (some "why") "wont-fix" false none "*" none
          (fun _ => MockResponse.mk 200 [] "")
          [[("ISSUE_URL", "https://app.snyk.io/org/o1/project/p1#issue-i1")]] 0).calls,
         RowOutcome.skippedMissingUrl
           :: (process_csv_rows "tok" (some "why") "wont-fix" false none "*" none
            (fun _ => MockResponse.mk 200 [] "")
            [[("ISSUE_URL", "https://app.snyk.io/org/o1/project/p1#issue-i1")]] 0).outcomes,
         (process_csv_rows "tok" (some "why") "wont-fix" false none "*" none
          (fun _ => MockResponse.mk 200 [] "")
          [[("ISSUE_URL", "https://app.snyk.io/org/o1/project/p1#issue-i1")]] 0).exc⟩ :=
  missing_url_row_skipped "tok" (some "why") "wont-fix" false none "*" none
    (fun _ => MockResponse.mk 200 [] "") [("NOTE", "x")]
    [[("ISSUE_URL", "https://app.snyk.io/org/o1/project/p1#issue-i1")]] 0 (by decide)

/-! ## Claim C9 -/

/-- Claim C9 is wrong about the code: `process_csv` has no exception
handler, so the `ValueError` raised while handling a 429 with a non-numeric
`Retry-After` on the first row aborts the whole run — the second row is
never attempted (no outcome is printed at all), contradicting "attempts all
rows" and "no exception propagates out of per-row processing".  The last
conjunct shows the second row alone processes fine, so its loss is due only
to the first row's exception. -/
theorem bad_retry_after_aborts_run :
    (process_csv_rows "tok" (some "why") "wont-fix" false none "*" none
        (fun _ => MockResponse.mk 429 [("Retry-After", "soon")] "")
        [[("ISSUE_URL", "https://app.snyk.io/org/o1/project/p1#issue-i1")],
         [("ISSUE_URL", "https://app.snyk.io/org/o2/project/p2#issue-i2")]] 0).exc
      = some valueErrorMsg
    ∧ (process_csv_rows "tok" (some "why") "wont-fix" false none "*" none
        (fun _ => MockResponse.mk 429 [("Retry-After", "soon")] "")
        [[("ISSUE_URL", "https://app.snyk.io/org/o1/project/p1#issue-i1")],
         [("ISSUE_URL", "https://app.snyk.io/org/o2/project/p2#issue-i2")]] 0).outcomes = []
    ∧ (process_csv_rows "tok" (some "why") "wont-fix" false none "*" none
        (fun _ => MockResponse.mk 429 [("Retry-After", "soon")] "")
        [[("ISSUE_URL", "https://app.snyk.io/org/o1/project/p1#issue-i1")],
         [("ISSUE_URL", "https://app.snyk.io/org/o2/project/p2#issue-i2")]] 0).calls.length = 1
    ∧ (process_csv_rows "tok" (some "why") "wont-fix" false none "*" none
        (fun _ => MockResponse.mk 429 [("Retry-After", "soon")] "")
        [[("ISSUE_URL", "https://app.snyk.io/org/o2/project/p2#issue-i2")]] 0).exc
      = some valueErrorMsg
    ∧ (process_csv_rows "tok" (some "why") "wont-fix" false none "*" none
        (fun _ => MockResponse.mk 200 [] "")
        [[("ISSUE_URL", "https://app.snyk.io/org/o2/project/p2#issue-i2")]] 0).outcomes
      = [RowOutcome.succeeded "i2" "o2" "p2"] :=
  ⟨rfl, rfl, rfl, rfl, rfl⟩

/-! ## Claim C10 -/

/-- Claim C10: the API client is never invoked with an empty organization,
project, or issue identifier — the processor's truthiness guard also
rejects the empty strings the URL functions can return — so every request
URL the client builds interpolates three non-empty identifiers. -/
theorem client_calls_use_nonempty_ids
    (tok : String) (rt : Option String) (rty : String) (dif : Bool) (ex : Option String)
    (ip : String) (itc : Option String) (responses : Nat → MockResponse) :
    ∀ (rows : List (List (String × String))) (idx : Nat) (c : ClientCall),
      c ∈ (process_csv_rows tok rt rty dif ex ip itc responses rows idx).calls →
      c.org_id ≠ "" ∧ c.project_id ≠ "" ∧ c.issue_id ≠ ""
        ∧ c.result.url = snykIgnoreUrl c.org_id c.project_id c.issue_id := by
  intro rows
  induction rows with
  | nil => intro idx c hc; simp [process_csv_rows] at hc
  | cons row rest ih =>
    intro idx c hc
    simp only [process_csv_rows] at hc
    by_cases hu : (pyStrip ((List.lookup "ISSUE_URL" row).getD "") == "") = true
    · rw [if_pos hu] at hc
      exact ih idx c hc
    · rw [if_neg hu] at hc
      by_cases hg : pyTruthyStrOpt (parse_org_id
            (pyStrip ((List.lookup "ISSUE_URL" row).getD ""))) = false
          ∨ pyTruthyStrOpt (parse_project_id
            (pyStrip ((List.lookup "ISSUE_URL" row).getD ""))) = false
          ∨ pyTruthyStrOpt (parse_issue_id
            (pyStrip ((List.lookup "ISSUE_URL" row).getD ""))) = false
      · rw [if_pos hg] at hc
        exact ih idx c hc
      · rw [if_neg hg] at hc
        push_neg at hg
        obtain ⟨ho, hp, hi⟩ := hg
        have ho' : pyTruthyStrOpt (parse_org_id
            (pyStrip ((List.lookup "ISSUE_URL" row).getD ""))) = true :=
          eq_true_of_ne_false ho
        have hp' : pyTruthyStrOpt (parse_project_id
            (pyStrip ((List.lookup "ISSUE_URL" row).getD ""))) = true :=
          eq_true_of_ne_false hp
        have hi' : pyTruthyStrOpt (parse_issue_id
            (pyStrip ((List.lookup "ISSUE_URL" row).getD ""))) = true :=
          eq_true_of_ne_false hi
        cases hrr : rowReason rt itc row with
        | none =>
          simp only [hrr] at hc
          exact ih idx c hc
        | some fr =>
          simp only [hrr] at hc
          cases hout : (call_snyk_ignore_api
              ((parse_org_id (pyStrip ((List.lookup "ISSUE_URL" row).getD ""))).getD "")
              ((parse_project_id (pyStrip ((List.lookup "ISSUE_URL" row).getD ""))).getD "")
              ((parse_issue_id (pyStrip ((List.lookup "ISSUE_URL" row).getD ""))).getD "")
              tok fr rty dif ex ip (fun k => responses (idx + k)) 3).outcome with
          | error e =>
            simp only [hout, List.mem_singleton] at hc
            subst hc
            exact ⟨truthy_getD ho', truthy_getD hp', truthy_getD hi', rfl⟩
          | ok resp =>
            simp only [hout, List.mem_cons] at hc
            rcases hc with rfl | hc
            · exact ⟨truthy_getD ho', truthy_getD hp', truthy_getD hi', rfl⟩
            · exact ih _ c hc

/-- Claim C10, witness: the single call of a one-row run has non-empty
identifiers and the matching URL. -/
theorem client_calls_use_nonempty_ids_witness :
    ((process_csv_rows "tok" (some "why") "wont-fix" false none "*" none
        (fun _ => MockResponse.mk 200 [] "")
        [[("ISSUE_URL", "https://app.snyk.io/org/o1/project/p1#issue-i1")]] 0).calls.headD
      ⟨"", "", "", "", call_snyk_ignore_api "" "" "" "" "" "" false none ""
        (fun _ => MockResponse.mk 0 [] "") 0⟩).org_id ≠ ""
    ∧ ((process_csv_rows "tok" (some "why") "wont-fix" false none "*" none
        (fun _ => MockResponse.mk 200 [] "")
        [[("ISSUE_URL", "https://app.snyk.io/org/o1/project/p1#issue-i1")]] 0).calls.headD
      ⟨"", "", "", "", call_snyk_ignore_api "" "" "" "" "" "" false none ""
        (fun _ => MockResponse.mk 0 [] "") 0⟩).project_id ≠ ""
    ∧ ((process_csv_rows "tok" (some "why") "wont-fix" false none "*" none
        (fun _ => MockResponse.mk 200 [] "")
        [[("ISSUE_URL", "https://app.snyk.io/org/o1/project/p1#issue-i1")]] 0).calls.headD
      ⟨"", "", "", "", call_snyk_ignore_api "" "" "" "" "" "" false none ""
        (fun _ => MockResponse.mk 0 [] "") 0⟩).issue_id ≠ ""
    ∧ ((process_csv_rows "tok" (some "why") "wont-fix" false none "*" none
        (fun _ => MockResponse.mk 200 [] "")
        [[("ISSUE_URL", "https://app.snyk.io/org/o1/project/p1#issue-i1")]] 0).calls.headD
      ⟨"", "", "", "", call_snyk_ignore_api "" "" "" "" "" "" false none ""
        (fun _ => MockResponse.mk 0 [] "") 0⟩).result.url
      = snykIgnoreUrl
        ((process_csv_rows "tok" (some "why") "wont-fix" false none "*" none
          (fun _ => MockResponse.mk 200 [] "")
          [[("ISSUE_URL", "https://app.snyk.io/org/o1/project/p1#issue-i1")]] 0).calls.headD
        ⟨"", "", "", "", call_snyk_ignore_api "" "" "" "" "" "" false none ""
          (fun _ => MockResponse.mk 0 [] "") 0⟩).org_id
        ((process_csv_rows "tok" (some "why") "wont-fix" false none "*" none
          (fun _ => MockResponse.mk 200 [] "")
          [[("ISSUE_URL", "https://app.snyk.io/org/o1/project/p1#issue-i1")]] 0).calls.headD
        ⟨"", "", "", "", call_snyk_ignore_api "" "" "" "" "" "" false none ""
          (fun _ => MockResponse.mk 0 [] "") 0⟩).project_id
        ((process_csv_rows "tok" (some "why") "wont-fix" false none "*" none
          (fun _ => MockResponse.mk 200 [] "")
          [[("ISSUE_URL", "https://app.snyk.io/org/o1/project/p1#issue-i1")]] 0).calls.headD
        ⟨"", "", "", "", call_snyk_ignore_api "" "" "" "" "" "" false none ""
          (fun _ => MockResponse.mk 0 [] "") 0⟩).issue_id := by
  have hne : (process_csv_rows "tok" (some "why") "wont-fix" false none "*" none
      (fun _ => MockResponse.mk 200 [] "")
      [[("ISSUE_URL", "https://app.snyk.io/org/o1/project/p1#issue-i1")]] 0).calls ≠ [] :=
    List.cons_ne_nil _ _
  exact client_calls_use_nonempty_ids "tok" (some "why") "wont-fix" false none "*" none
    (fun _ => MockResponse.mk 200 [] "")
    [[("ISSUE_URL", "https://app.snyk.io/org/o1/project/p1#issue-i1")]] 0 _
    (headD_mem _ hne)

end SnykIgnore
